import Mathlib

/-!
Verification of the Whispers of Self agent simulation.

The definitions below are a shallow embedding of the Python sources:
agent state and its methods from src/whispers/agents/base_agent.py,
the spatial environment from src/whispers/environment/environment.py,
the negotiation baseline from src/whispers/negotiation/baseline.py,
the personality behaviours from src/whispers/agents/personality_agents.py
and src/whispers/agents/personalities/, and the day loop from
src/whispers/simulation/simulation.py.  Python ints are modelled as Int,
Python floats as Rat, random draws as explicit parameters.
-/

/-- Mirror of the AgentState dataclass (base_agent.py). -/
structure AgentState where
  id : String := ""
  agent_type : String := ""
  age : Int := 0
  alive : Bool := true
  reputation : ℚ := 1/2
  harvest_history : List Int := []
  cooperation_history : List Bool := []
  resources_reserve : Int := 0
  daily_need : Int := 3
  reproduction_reserve : Int := 8
  reproduction_cost : Int := 8
  position_x : Int := 0
  position_y : Int := 0
  request_multiplier : ℚ := 1
  negotiation_demand : ℚ := 1/2
  acceptance_threshold : ℚ := 3/10
  greed_index : ℚ := 1/2
  newborn : Bool := false
deriving DecidableEq, Repr

/-- The three concrete personality classes. -/
inductive Profile where
  | altruist
  | egoist
  | pragmatist
deriving DecidableEq, Repr

/-- BaseAgent.die: mark the agent as dead. -/
def die (s : AgentState) : AgentState :=
  { s with alive := false }

/-- BaseAgent.age_step: increment the age by one day. -/
def age_step (s : AgentState) : AgentState :=
  { s with age := s.age + 1 }

/-- BaseAgent.receive_resources: credit the reserve and log harvest history.
Note: the source appends to harvest_history here but performs no trimming;
the length-10 trim lives in add_resources. -/
def receive_resources (s : AgentState) (amount : Int) : AgentState :=
  if amount ≤ 0 then
    { s with harvest_history := s.harvest_history ++ [0] }
  else
    { s with resources_reserve := s.resources_reserve + amount,
             harvest_history := s.harvest_history ++ [amount] }

/-- BaseAgent.add_resources: alias that calls receive_resources, then keeps
only the last 10 harvests (list.pop(0) drops the oldest entry). -/
def add_resources (s : AgentState) (amount : Int) : AgentState :=
  let s1 := receive_resources s amount
  if 10 < s1.harvest_history.length then
    { s1 with harvest_history := s1.harvest_history.tail }
  else s1

/-- BaseAgent.consume_resources: best-effort debit; returns whether the
amount was fully covered, zeroing the reserve when it was not. -/
def consume_resources (s : AgentState) (amount : Int) : Bool × AgentState :=
  if amount ≤ 0 then (true, s)
  else if amount ≤ s.resources_reserve then
    (true, { s with resources_reserve := s.resources_reserve - amount })
  else
    (false, { s with resources_reserve := 0 })

/-- BaseAgent.perform_daily_upkeep: die when the day's collected resources
fall short of daily_need. -/
def perform_daily_upkeep (s : AgentState) : AgentState :=
  if s.resources_reserve < s.daily_need then die s else s

/-- BaseAgent.update_reputation: append to the cooperation window, trim it
to 20, and smooth the reputation towards the window mean. -/
def update_reputation (s : AgentState) (cooperation_success : Bool) : AgentState :=
  let h1 := s.cooperation_history ++ [cooperation_success]
  let h2 := if 20 < h1.length then h1.tail else h1
  if h2.isEmpty then { s with cooperation_history := h2 }
  else
    let rate : ℚ := (h2.countP (fun x => x) : ℚ) / (h2.length : ℚ)
    { s with cooperation_history := h2,
             reputation := (9/10) * s.reputation + (1/10) * rate }

/-- BaseAgent.can_reproduce: alive with reserve at least reproduction_reserve. -/
def can_reproduce (s : AgentState) : Bool :=
  s.alive && decide (s.reproduction_reserve ≤ s.resources_reserve)

/-- BaseAgent.charge_reproduction_cost: consume the reproduction cost. -/
def charge_reproduction_cost (s : AgentState) : AgentState :=
  (consume_resources s s.reproduction_cost).2

/-- BaseAgent.start_new_day: reset the per-day reserve. -/
def start_new_day (s : AgentState) : AgentState :=
  { s with resources_reserve := 0 }

/-- Default AgentState of an Altruist() constructor. -/
def altruistDefault : AgentState :=
  { agent_type := "altruist", request_multiplier := 7/10,
    negotiation_demand := 1/2, acceptance_threshold := 3/10,
    greed_index := 1/5 }

/-- Default AgentState of an Egoist() constructor. -/
def egoistDefault : AgentState :=
  { agent_type := "egoist", request_multiplier := 3/2,
    negotiation_demand := 7/10, acceptance_threshold := 2/5,
    greed_index := 4/5 }

/-- Default AgentState of a Pragmatist() constructor. -/
def pragmatistDefault : AgentState :=
  { agent_type := "pragmatist", request_multiplier := 1,
    negotiation_demand := 11/20, acceptance_threshold := 7/20,
    greed_index := 1/2 }

/-- Mirror of the Resource dataclass (environment.py). -/
structure Resource where
  x : Int
  y : Int
  value : Int
  collected : Bool := false
deriving DecidableEq, Repr

/-- Environment.collect_resource: returns 0 for an already-collected
resource, otherwise marks it collected and returns its value. -/
def collect_resource (r : Resource) : Int × Resource :=
  if r.collected then (0, r)
  else (r.value, { r with collected := true })

/-- Manhattan distance from a resource to the agent position, the key of
the min call in Environment.get_closest_resource. -/
def manhattanKey (agent_x agent_y : Int) (r : Resource) : Nat :=
  (r.x - agent_x).natAbs + (r.y - agent_y).natAbs

/-- The semantics of the Python builtin min with a key function: a linear
scan keeping the current best and replacing it only on a strictly smaller
key, so the first minimum encountered wins. -/
def pyMinBy (key : Resource → Nat) (best : Resource) : List Resource → Resource
  | [] => best
  | r :: rs => pyMinBy key (if key r < key best then r else best) rs

/-- Environment.get_closest_resource: filter the uncollected resources and
take the min by Manhattan distance (none when no resource is available). -/
def get_closest_resource (resources : List Resource) (agent_x agent_y : Int) :
    Option Resource :=
  match resources.filter (fun r => !r.collected) with
  | [] => none
  | b :: rest => some (pyMinBy (manhattanKey agent_x agent_y) b rest)

/-- Whether x attains the minimum key over the list l. -/
def minPred (key : Resource → Nat) (l : List Resource) (x : Resource) : Bool :=
  l.all (fun y => decide (key x ≤ key y))

/-- Modelled from the spec wording for comparison: the first uncollected
resource, in list order, whose Manhattan distance is no larger than that of
every other uncollected resource (linear-scan first-match semantics). -/
def closestResourceSpec (resources : List Resource) (agent_x agent_y : Int) :
    Option Resource :=
  let available := resources.filter (fun r => !r.collected)
  available.find? (minPred (manhattanKey agent_x agent_y) available)

/-- Python random.uniform(lo, hi) with the raw draw u in [0, 1] explicit. -/
def uniformDraw (lo hi u : ℚ) : ℚ :=
  lo + u * (hi - lo)

/-- negotiate_demand of the three personalities (personality_agents.py):
the reputation-dependent adjustment interval and the profile band clamp.
The raw random draw u is passed explicitly. -/
def negotiate_demand (p : Profile) (s : AgentState) (partner_reputation u : ℚ) : ℚ :=
  match p with
  | .altruist =>
      let adjustment :=
        if 4/5 < partner_reputation then uniformDraw (-(1/20)) 0 u
        else uniformDraw (-(1/50)) (1/50) u
      max (3/10) (min (7/10) (s.negotiation_demand + adjustment))
  | .egoist =>
      let adjustment :=
        if partner_reputation < 2/5 then uniformDraw (1/20) (3/20) u
        else if 4/5 < partner_reputation then uniformDraw (-(1/20)) (1/20) u
        else uniformDraw (-(1/50)) (2/25) u
      max (1/2) (min (9/10) (s.negotiation_demand + adjustment))
  | .pragmatist =>
      let adjustment :=
        if partner_reputation < 3/10 then uniformDraw (1/20) (1/10) u
        else if 7/10 < partner_reputation then uniformDraw (-(1/20)) (1/20) u
        else uniformDraw (-(3/100)) (3/100) u
      max (2/5) (min (7/10) (s.negotiation_demand + adjustment))

/-- will_accept_offer of the three personalities (personality_agents.py):
accept outright when the own share reaches the acceptance threshold,
otherwise a reputation-gated probabilistic acceptance with the coin-flip
draw passed explicitly. -/
def will_accept_offer (p : Profile) (s : AgentState)
    (partner_demand partner_reputation coin : ℚ) : Bool :=
  let my_share := 1 - partner_demand
  match p with
  | .altruist =>
      if s.acceptance_threshold ≤ my_share then true
      else if 7/10 < partner_reputation ∧ s.acceptance_threshold * (4/5) ≤ my_share then
        decide (coin < 3/10)
      else false
  | .egoist =>
      if s.acceptance_threshold ≤ my_share then true
      else if 9/10 < partner_reputation ∧ s.acceptance_threshold * (9/10) ≤ my_share then
        decide (coin < 1/10)
      else false
  | .pragmatist =>
      if s.acceptance_threshold ≤ my_share then true
      else if 3/5 < partner_reputation then
        (if s.acceptance_threshold * (4/5) ≤ my_share then decide (coin < 3/5) else false)
      else if partner_reputation < 3/10 then
        (if s.acceptance_threshold * (6/5) ≤ my_share then decide (coin < 1/5) else false)
      else false

/-- Negotiation.negotiate (negotiation/baseline.py): the baseline body
returns (0, 0, False) unconditionally. -/
def negotiate (a b : Profile × AgentState) (resource_size : Int) : Int × Int × Bool :=
  (0, 0, false)

/-- Python int() applied to a nonnegative-or-negative rational: truncation
towards zero. -/
def truncToInt (q : ℚ) : Int :=
  if q < 0 then -(⌊-q⌋) else ⌊q⌋

/-- calculate_request of the three personalities (personality_agents.py):
fair share guarded by max(population_size, 1), scaled by the (possibly
abundance-adjusted) request multiplier, truncated, jittered, floored at 1.
The randint jitter is passed explicitly. -/
def calculate_request (p : Profile) (s : AgentState)
    (total_resources population_size : Nat) (jitter : Int) : Int :=
  let fair_share : ℚ := (total_resources : ℚ) / (max population_size 1 : ℚ)
  match p with
  | .altruist =>
      max 1 (truncToInt (fair_share * s.request_multiplier) + jitter)
  | .egoist =>
      max 1 (truncToInt (fair_share * s.request_multiplier) + jitter)
  | .pragmatist =>
      let multiplier :=
        if population_size * 10 < total_resources then s.request_multiplier * (6/5)
        else if total_resources < population_size * 3 then s.request_multiplier * (4/5)
        else s.request_multiplier
      max 1 (truncToInt (fair_share * multiplier) + jitter)

/-- reproduce of the three personalities (personalities/altruist.py,
egoist.py, pragmatist.py): gate on can_reproduce, draw mutation (r1 against
the mutation rate, r2 against 1/2 for the replacement profile), otherwise
perturb the four traits, then charge the reproduction cost.  The offspring
state and the updated parent state are both returned. -/
def reproduce (p : Profile) (s : AgentState) (mutation_rate r1 r2 u1 u2 u3 u4 : ℚ) :
    Option AgentState × AgentState :=
  if can_reproduce s = false then (none, s)
  else
    let perturbed : AgentState :=
      { agent_type := match p with
          | .altruist => "altruist"
          | .egoist => "egoist"
          | .pragmatist => "pragmatist"
        request_multiplier := s.request_multiplier + uniformDraw (-(1/10)) (1/10) u1,
        negotiation_demand := s.negotiation_demand + uniformDraw (-(1/20)) (1/20) u2,
        acceptance_threshold := s.acceptance_threshold + uniformDraw (-(1/20)) (1/20) u3,
        greed_index := s.greed_index + uniformDraw (-(1/10)) (1/10) u4 }
    let offspring :=
      if r1 < mutation_rate then
        match p with
        | .altruist => if r2 < 1/2 then pragmatistDefault else egoistDefault
        | .egoist => if r2 < 1/2 then pragmatistDefault else altruistDefault
        | .pragmatist => if r2 < 1/2 then altruistDefault else egoistDefault
      else perturbed
    (some offspring, charge_reproduction_cost s)

/-- Mirror of SimulationConfig (simulation.py). -/
structure SimulationConfig where
  num_days : Int := 30
  daily_resource_budget : Int := 0
deriving DecidableEq, Repr

/-- Mirror of the Simulation class state (simulation.py). -/
structure Simulation where
  agents : List AgentState
  config : SimulationConfig
  day_index : Int := 0
deriving DecidableEq, Repr

/-- Simulation.step: the body only increments the private day index. -/
def Simulation.step (sim : Simulation) : Simulation :=
  { sim with day_index := sim.day_index + 1 }

/-- Simulation.run: step once per configured day. -/
def Simulation.run (sim : Simulation) : Simulation :=
  Simulation.step^[sim.config.num_days.toNat] sim

/-- A credit or debit against an agent, for reasoning about arbitrary
sequences of receive_resources / consume_resources calls. -/
inductive ResOp where
  | receive (amount : Int)
  | consume (amount : Int)
deriving DecidableEq, Repr

/-- Apply one credit/debit call, discarding consume's boolean result. -/
def applyOp (s : AgentState) : ResOp → AgentState
  | .receive amount => receive_resources s amount
  | .consume amount => (consume_resources s amount).2

/-- Apply a sequence of credit/debit calls in order. -/
def applyOps (s : AgentState) : List ResOp → AgentState
  | [] => s
  | op :: ops => applyOps (applyOp s op) ops

/-- Fixture: three default-constructed agents, one per profile, in a
simulation configured for 2 days (test_simulation_basics.py setup). -/
def simThreeAgents : Simulation :=
  { agents := [altruistDefault, egoistDefault, pragmatistDefault],
    config := { num_days := 2 } }

/-- Fixture: a fresh agent with a given reserve (daily_need keeps its
default of 3). -/
def agentReserve (n : Int) : AgentState :=
  { resources_reserve := n }

/-- Fixture: an eligible parent holding 15 resources (thresholds default
to reproduction_reserve = 8, reproduction_cost = 8). -/
def eligibleParent : AgentState :=
  { resources_reserve := 15 }

/-- Fixture: an eligible parent whose reproduction_cost exceeds its
reserve (constructed with reproduction_cost > reproduction_reserve). -/
def poorCostParent : AgentState :=
  { resources_reserve := 10, reproduction_cost := 100 }

/-- The C1 claim as stated: whenever both sides accept (per
will_accept_offer applied to the other side's negotiate_demand result),
negotiate splits the pool with floored shares and success = true, and
otherwise allocates nothing with success = false. -/
def ClaimC1 : Prop :=
  ∀ (pa pb : Profile) (sa sb : AgentState) (S : Int) (ua ub ca cb : ℚ),
    0 ≤ S →
    (will_accept_offer pa sa (negotiate_demand pb sb sa.reputation ub)
        sb.reputation ca = true ∧
     will_accept_offer pb sb (negotiate_demand pa sa sb.reputation ua)
        sa.reputation cb = true →
      negotiate (pa, sa) (pb, sb) S =
        (⌊(1 - negotiate_demand pb sb sa.reputation ub) * (S : ℚ)⌋,
         ⌊(1 - negotiate_demand pa sa sb.reputation ua) * (S : ℚ)⌋, true)) ∧
    (¬(will_accept_offer pa sa (negotiate_demand pb sb sa.reputation ub)
        sb.reputation ca = true ∧
       will_accept_offer pb sb (negotiate_demand pa sa sb.reputation ua)
        sa.reputation cb = true) →
      negotiate (pa, sa) (pb, sb) S = (0, 0, false))

/-- The C5 claim as stated: an ineligible agent gets null with no state
change, and an eligible one gets a non-null offspring with the reserve
lowered by exactly reproduction_cost. -/
def ClaimC5 : Prop :=
  ∀ (p : Profile) (s : AgentState) (mutation_rate r1 r2 u1 u2 u3 u4 : ℚ),
    ((s.alive = false ∨ s.resources_reserve < s.reproduction_reserve) →
      reproduce p s mutation_rate r1 r2 u1 u2 u3 u4 = (none, s)) ∧
    (s.alive = true → s.reproduction_reserve ≤ s.resources_reserve →
      (∃ off, (reproduce p s mutation_rate r1 r2 u1 u2 u3 u4).1 = some off) ∧
      (reproduce p s mutation_rate r1 r2 u1 u2 u3 u4).2.resources_reserve =
        s.resources_reserve - s.reproduction_cost)

lemma applyOp_reserve_nonneg (s : AgentState) (op : ResOp)
    (h : 0 ≤ s.resources_reserve) : 0 ≤ (applyOp s op).resources_reserve := by
  cases op with
  | receive amount =>
      show 0 ≤ (receive_resources s amount).resources_reserve
      unfold receive_resources
      split_ifs <;> simp <;> omega
  | consume amount =>
      show 0 ≤ (consume_resources s amount).2.resources_reserve
      unfold consume_resources
      split_ifs <;> simp <;> omega

lemma applyOps_reserve_nonneg (ops : List ResOp) (s : AgentState)
    (h : 0 ≤ s.resources_reserve) : 0 ≤ (applyOps s ops).resources_reserve := by
  induction ops generalizing s with
  | nil => exact h
  | cons op ops ih => exact ih (applyOp s op) (applyOp_reserve_nonneg s op h)

lemma pyMinBy_of_min (key : Resource → Nat) :
    ∀ (rs : List Resource) (best : Resource),
      (∀ r ∈ rs, key best ≤ key r) → pyMinBy key best rs = best := by
  intro rs
  induction rs with
  | nil => intro best _; rfl
  | cons r rs ih =>
      intro best h
      unfold pyMinBy
      rw [if_neg (not_lt.mpr (h r (List.mem_cons_self r rs)))]
      exact ih best fun x hx => h x (List.mem_cons_of_mem r hx)

lemma pyMinBy_cons (key : Resource → Nat) (best r : Resource) (rs : List Resource) :
    pyMinBy key best (r :: rs) = pyMinBy key (if key r < key best then r else best) rs :=
  rfl

lemma pyMinBy_find? (key : Resource → Nat) :
    ∀ (rs : List Resource) (best : Resource),
      (best :: rs).find? (minPred key (best :: rs)) = some (pyMinBy key best rs) := by
  intro rs
  induction rs with
  | nil =>
      intro best
      simp [pyMinBy, minPred, List.find?]
  | cons r rs ih =>
      intro best
      by_cases hc : key r < key best
      · have hpbn : ¬ minPred key (best :: r :: rs) best = true := by
          simp only [minPred, List.all_eq_true, decide_eq_true_eq]
          intro hall
          exact absurd (hall r (by simp)) (not_le.mpr hc)
        rw [List.find?_cons_of_neg _ hpbn]
        have hfun : minPred key (best :: r :: rs) = minPred key (r :: rs) := by
          funext x
          by_cases hx : key x ≤ key r
          · have hxb : key x ≤ key best := le_of_lt (lt_of_le_of_lt hx hc)
            simp [minPred, List.all_cons, hx, hxb]
          · simp [minPred, List.all_cons, hx]
        rw [hfun, ih r, pyMinBy_cons, if_pos hc]
      · have hbr : key best ≤ key r := not_lt.mp hc
        by_cases hpb : minPred key (best :: r :: rs) best = true
        · rw [List.find?_cons_of_pos _ hpb]
          have hall : ∀ z ∈ r :: rs, key best ≤ key z := by
            simp only [minPred, List.all_eq_true, decide_eq_true_eq] at hpb
            exact fun z hz => hpb z (List.mem_cons_of_mem best hz)
          rw [pyMinBy_of_min key (r :: rs) best hall]
        · have hfalse : (List.all (best :: r :: rs)
              fun y => decide (key best ≤ key y)) = false := by
            rw [Bool.not_eq_true] at hpb
            exact hpb
          have hex : ∃ y ∈ rs, key y < key best := by
            obtain ⟨x, hx, hxf⟩ := List.all_eq_false.mp hfalse
            have hxlt : key x < key best := by simpa [not_le] using hxf
            simp only [List.mem_cons] at hx
            rcases hx with rfl | rfl | hx
            · exact absurd hxlt (lt_irrefl _)
            · exact absurd hxlt (not_lt.mpr hbr)
            · exact ⟨x, hx, hxlt⟩
          obtain ⟨y, hy, hylt⟩ := hex
          have hprn : ¬ minPred key (best :: r :: rs) r = true := by
            simp only [minPred, List.all_eq_true, decide_eq_true_eq]
            intro hall
            exact absurd (hall y (by simp [hy]))
              (not_le.mpr (lt_of_lt_of_le hylt hbr))
          rw [List.find?_cons_of_neg _ hpb, List.find?_cons_of_neg _ hprn]
          have hfun : minPred key (best :: r :: rs) = minPred key (best :: rs) := by
            funext x
            by_cases hx : key x ≤ key best
            · have hxr : key x ≤ key r := le_trans hx hbr
              simp [minPred, List.all_cons, hx, hxr]
            · simp [minPred, List.all_cons, hx]
          have hsmn : ¬ minPred key (best :: rs) best = true := by
            simp only [minPred, List.all_eq_true, decide_eq_true_eq]
            intro hall
            exact absurd (hall y (by simp [hy])) (not_le.mpr hylt)
          have hih := ih best
          rw [List.find?_cons_of_neg _ hsmn] at hih
          rw [hfun, hih, pyMinBy_cons, if_neg hc]

lemma charge_reserve_min (s : AgentState)
    (h0 : 0 ≤ s.resources_reserve) (h1 : 0 ≤ s.reproduction_cost) :
    (charge_reproduction_cost s).resources_reserve =
      s.resources_reserve - min s.reproduction_cost s.resources_reserve := by
  unfold charge_reproduction_cost consume_resources
  split_ifs <;> simp <;> omega

/-- C2: collect_resource on an already-collected resource of value 5
returns 0, not the value 5 that the claim (and the repository test
test_environment_edge_cases.py) states; the first collection does return
5 and sets the flag. -/
theorem C2_collect_already_collected_returns_zero :
    collect_resource { x := 1, y := 1, value := 5, collected := true } =
      (0, { x := 1, y := 1, value := 5, collected := true }) ∧
    collect_resource { x := 1, y := 1, value := 5, collected := false } =
      (5, { x := 1, y := 1, value := 5, collected := true }) :=
  ⟨rfl, rfl⟩

/-- C3: eleven direct receive_resources calls on a fresh agent leave a
harvest history of length 11 — the length-10 trim only happens inside
add_resources, so the claimed bound of 10 fails on the code (the
repository test test_agents.py expects length 10 here). -/
theorem C3_receive_resources_overflows_history :
    ((fun s => receive_resources s 1)^[11] ({} : AgentState)).harvest_history.length
      = 11 := by
  decide

/-- C4: one step of the three-agent simulation advances the day counter to
1 and running the 2-day budget advances it to 2 with all agents still
alive, but no agent age is incremented — step never ages the agents,
contradicting the claim (and the step docstring). -/
theorem C4_step_does_not_age_agents :
    (simThreeAgents.step).day_index = 1 ∧
    (simThreeAgents.step).agents.map AgentState.age = [0, 0, 0] ∧
    (simThreeAgents.run).day_index = 2 ∧
    (simThreeAgents.run).agents.all AgentState.alive = true := by
  refine ⟨rfl, by decide, rfl, by decide⟩

/-- C6: perform_daily_upkeep kills exactly the underfed agents: a reserve
below daily_need forces alive = false, and an alive agent whose reserve
meets daily_need stays alive. -/
theorem C6_upkeep_kills_exactly_underfed (s : AgentState) :
    (s.resources_reserve < s.daily_need → (perform_daily_upkeep s).alive = false) ∧
    (s.alive = true → s.daily_need ≤ s.resources_reserve →
      (perform_daily_upkeep s).alive = true) := by
  constructor
  · intro h
    unfold perform_daily_upkeep die
    rw [if_pos h]
  · intro ha h
    unfold perform_daily_upkeep
    rw [if_neg (not_lt.mpr h)]
    exact ha

/-- C6 witness: with the default daily_need of 3, a reserve of 2 dies
while reserves of 3 and 5 survive. -/
theorem C6_witness :
    (perform_daily_upkeep (agentReserve 2)).alive = false ∧
    (perform_daily_upkeep (agentReserve 3)).alive = true ∧
    (perform_daily_upkeep (agentReserve 5)).alive = true :=
  ⟨(C6_upkeep_kills_exactly_underfed (agentReserve 2)).1 (by decide),
   (C6_upkeep_kills_exactly_underfed (agentReserve 3)).2 rfl (by decide),
   (C6_upkeep_kills_exactly_underfed (agentReserve 5)).2 rfl (by decide)⟩

/-- C7: the credit/debit contract: a positive receive credits the reserve
and logs the amount; a nonpositive receive leaves the reserve alone and
logs a zero; a nonpositive consume is a no-op returning true; an affordable
consume debits and returns true; an unaffordable consume returns false and
zeroes the reserve; and the reserve stays nonnegative under any sequence of
receive/consume calls. -/
theorem C7_credit_debit_contract (s : AgentState) (amount : Int)
    (ops : List ResOp) (h0 : 0 ≤ s.resources_reserve) :
    (0 < amount →
      (receive_resources s amount).resources_reserve = s.resources_reserve + amount ∧
      (receive_resources s amount).harvest_history = s.harvest_history ++ [amount]) ∧
    (amount ≤ 0 →
      (receive_resources s amount).resources_reserve = s.resources_reserve ∧
      (receive_resources s amount).harvest_history = s.harvest_history ++ [0]) ∧
    (amount ≤ 0 → consume_resources s amount = (true, s)) ∧
    (0 < amount → amount ≤ s.resources_reserve →
      consume_resources s amount =
        (true, { s with resources_reserve := s.resources_reserve - amount })) ∧
    (s.resources_reserve < amount →
      consume_resources s amount = (false, { s with resources_reserve := 0 })) ∧
    0 ≤ (applyOps s ops).resources_reserve := by
  refine ⟨?_, ?_, ?_, ?_, ?_, applyOps_reserve_nonneg ops s h0⟩
  · intro h
    unfold receive_resources
    rw [if_neg (not_le.mpr h)]
    exact ⟨rfl, rfl⟩
  · intro h
    unfold receive_resources
    rw [if_pos h]
    exact ⟨rfl, rfl⟩
  · intro h
    unfold consume_resources
    rw [if_pos h]
  · intro h hle
    unfold consume_resources
    rw [if_neg (not_le.mpr h), if_pos hle]
  · intro h
    unfold consume_resources
    rw [if_neg (by omega : ¬ amount ≤ 0), if_neg (not_le.mpr h)]

/-- C7 witness: a concrete receive/consume sequence from a fresh agent
keeps the reserve nonnegative. -/
theorem C7_witness :
    0 ≤ (({} : AgentState)).resources_reserve ∧
    0 ≤ (applyOps ({} : AgentState)
          [ResOp.receive 5, ResOp.consume 2, ResOp.consume 99]).resources_reserve :=
  ⟨by decide,
   (C7_credit_debit_contract ({} : AgentState) 5
      [ResOp.receive 5, ResOp.consume 2, ResOp.consume 99]
      (by decide)).2.2.2.2.2⟩

/-- C8: get_closest_resource returns none exactly when no uncollected
resource exists, otherwise the uncollected resource minimizing Manhattan
distance with ties broken by first occurrence (linear-scan first-match
semantics, the spec-worded closestResourceSpec), and on resources at
(1,1), (5,5), (9,9) with the agent at (3,3) it returns the one at (1,1). -/
theorem C8_closest_resource (resources : List Resource) (agent_x agent_y : Int) :
    (get_closest_resource resources agent_x agent_y = none ↔
      resources.filter (fun r => !r.collected) = []) ∧
    get_closest_resource resources agent_x agent_y =
      closestResourceSpec resources agent_x agent_y ∧
    get_closest_resource
        [{ x := 1, y := 1, value := 1 }, { x := 5, y := 5, value := 1 },
         { x := 9, y := 9, value := 1 }] 3 3 =
      some { x := 1, y := 1, value := 1 } := by
  refine ⟨?_, ?_, by decide⟩
  · unfold get_closest_resource
    cases hf : resources.filter (fun r => !r.collected) with
    | nil => simp
    | cons b rest => simp
  · unfold get_closest_resource closestResourceSpec
    cases hf : resources.filter (fun r => !r.collected) with
    | nil => simp
    | cons b rest => simp [pyMinBy_find?]

/-- C9: every personality's calculate_request returns at least 1 for any
nonnegative total_resources and population_size (the fair-share divisor is
guarded by max(population_size, 1)) and for every jitter draw. -/
theorem C9_calculate_request_positive (p : Profile) (s : AgentState)
    (total_resources population_size : Nat) (jitter : Int) :
    1 ≤ calculate_request p s total_resources population_size jitter := by
  cases p <;> exact le_max_left _ _

/-- C10: charge_reproduction_cost lowers the reserve by exactly
min(reproduction_cost, resources_reserve) — strictly less than the full
cost whenever the cost exceeds the reserve. -/
theorem C10_charge_clamps_to_min (s : AgentState)
    (h0 : 0 ≤ s.resources_reserve) (h1 : 0 ≤ s.reproduction_cost) :
    (charge_reproduction_cost s).resources_reserve =
      s.resources_reserve - min s.reproduction_cost s.resources_reserve ∧
    (s.resources_reserve < s.reproduction_cost →
      s.resources_reserve - (charge_reproduction_cost s).resources_reserve <
        s.reproduction_cost) := by
  have hmin := charge_reserve_min s h0 h1
  refine ⟨hmin, fun hlt => ?_⟩
  rw [hmin]
  omega

/-- C1 counterexample: two default altruists with a pool of 10 both accept
deterministically (each demand evaluates to 1/2 and the own share 1/2 meets
the 3/10 threshold), yet negotiate still returns (0, 0, false) — the
baseline body never succeeds, so the claim is false. -/
theorem C1_counterexample : ¬ ClaimC1 := by
  intro h
  have hacc : will_accept_offer .altruist altruistDefault
      (negotiate_demand .altruist altruistDefault altruistDefault.reputation (1/2))
      altruistDefault.reputation 1 = true := by
    norm_num [will_accept_offer, negotiate_demand, uniformDraw, altruistDefault,
      min_def, max_def]
  have h2 :=
    (h .altruist .altruist altruistDefault altruistDefault 10
        (1/2) (1/2) 1 1 (by norm_num)).1 ⟨hacc, hacc⟩
  have h3 : (false : Bool) = true := congrArg (fun t => t.2.2) h2
  exact Bool.false_ne_true h3

/-- C1 (amended): the baseline negotiate allocates nothing and never
succeeds — for all agents and every pool size it returns (0, 0, false). -/
theorem C1_amended_negotiate_always_fails (a b : Profile × AgentState)
    (S : Int) : negotiate a b S = (0, 0, false) :=
  rfl

/-- C5 counterexample: an alive altruist with reserve 10, reproduction
reserve 8 and reproduction cost 100 is eligible and reproduces, but its
reserve is clamped to 0 by consume_resources instead of dropping to
10 - 100 = -90, so the claimed exact-cost deduction is false. -/
theorem C5_counterexample : ¬ ClaimC5 := by
  intro h
  have h2 := ((h .altruist poorCostParent 0 1 0 0 0 0 0).2 rfl (by decide)).2
  exact absurd h2 (by decide)

/-- C5 (amended): an ineligible agent gets null with no state change; an
eligible agent (alive, reserve at least reproduction_reserve, with the
usual nonnegative reserve and cost) gets a non-null offspring and its
reserve drops by exactly min(reproduction_cost, resources_reserve) —
equal to reproduction_cost whenever the cost does not exceed the
reserve. -/
theorem C5_amended_reproduce (p : Profile) (s : AgentState)
    (mutation_rate r1 r2 u1 u2 u3 u4 : ℚ) :
    (¬(s.alive = true ∧ s.reproduction_reserve ≤ s.resources_reserve) →
      reproduce p s mutation_rate r1 r2 u1 u2 u3 u4 = (none, s)) ∧
    (0 ≤ s.resources_reserve → 0 ≤ s.reproduction_cost →
     s.alive = true → s.reproduction_reserve ≤ s.resources_reserve →
      (∃ off, (reproduce p s mutation_rate r1 r2 u1 u2 u3 u4).1 = some off) ∧
      (reproduce p s mutation_rate r1 r2 u1 u2 u3 u4).2.resources_reserve =
        s.resources_reserve - min s.reproduction_cost s.resources_reserve) := by
  constructor
  · intro hnot
    have hfalse : can_reproduce s = false := by
      unfold can_reproduce
      cases hb : s.alive with
      | false => simp
      | true =>
          have hlt : s.resources_reserve < s.reproduction_reserve :=
            not_le.mp fun hle => hnot ⟨hb, hle⟩
          simp [not_le.mpr hlt]
    unfold reproduce
    rw [if_pos hfalse]
  · intro h0 h1 ha hle
    have htrue : ¬ can_reproduce s = false := by
      unfold can_reproduce
      simp [ha, hle]
    unfold reproduce
    rw [if_neg htrue]
    exact ⟨⟨_, rfl⟩, charge_reserve_min s h0 h1⟩

/-- C5 witness: the spec example — an alive agent with reserve 15,
reproduction reserve 8 and cost 8 reproduces and is charged exactly 8
(min(8, 15)), leaving 7. -/
theorem C5_witness :
    eligibleParent.alive = true ∧
    eligibleParent.reproduction_reserve ≤ eligibleParent.resources_reserve ∧
    ((∃ off, (reproduce .altruist eligibleParent 0 1 0 0 0 0 0).1 = some off) ∧
      (reproduce .altruist eligibleParent 0 1 0 0 0 0 0).2.resources_reserve =
        eligibleParent.resources_reserve -
          min eligibleParent.reproduction_cost eligibleParent.resources_reserve) :=
  ⟨rfl, by decide,
   (C5_amended_reproduce .altruist eligibleParent 0 1 0 0 0 0 0).2
     (by decide) (by decide) rfl (by decide)⟩

/-- C10 witness: an eligible parent with reserve 10 and cost 100 is only
charged 10 — its reserve clamps to 0. -/
theorem C10_witness :
    (0 : Int) ≤ poorCostParent.resources_reserve ∧
    (0 : Int) ≤ poorCostParent.reproduction_cost ∧
    (charge_reproduction_cost poorCostParent).resources_reserve =
      poorCostParent.resources_reserve -
        min poorCostParent.reproduction_cost poorCostParent.resources_reserve :=
  ⟨by decide, by decide,
   (C10_charge_clamps_to_min poorCostParent (by decide) (by decide)).1⟩
